import Mathlib

/-!
# Verification of the A2A agent-conversation repository

This file gives a shallow embedding of the two source files of the
repository and proves properties of the embedded definitions.

* `src/google_adk/agent.py` — the `calculate` tool (a restricted Python
  `eval` over arithmetic expressions) and the `set_thread_id_middleware`
  HTTP middleware that extracts `metadata.thread_id` from inbound request
  bodies and scopes an OpenTelemetry context/span around request handling.
* `src/test_agent_conversation.py` — the conversation relay driver
  (`simulate_conversation` together with `send_to_langchain` and
  `send_to_google_adk`) that alternates messages between the two agent
  endpoints, threading `contextId`/`taskId`/`thread_id` values.

Machine-level aspects that the claims do not depend on (UUID generation,
console printing, the inter-round sleep, HTTP transport) are elided;
nondeterministic network behaviour is modelled by environment functions
supplying the response of each endpoint at each round.
-/

/-! ## Part 1: the expression evaluator (`calculate` in `src/google_adk/agent.py`)

The Python code evaluates an expression string with `eval` under the
namespace `{"__builtins__": {}, "abs": abs, "round": round, "min": min,
"max": max, "sum": sum, "pow": pow}`.  We embed the integer fragment of
the permitted expression language as an inductive syntax `Expr`:
integer literals, unary minus, `+`, `-`, `*`, `//`, `%`, `**`, and calls
of one or two arguments to a (possibly undefined) name.  Expressions
whose Python value is a non-integer float (only reachable through `**`
or `pow` with a negative exponent) are outside the modelled fragment and
evaluate to the marker outcome `nonInt`.
-/

/-- Exceptions the restricted `eval` can raise.  Messages follow Python's
`str(e)` for the corresponding exceptions, with quote characters around
interpolated names elided. -/
inductive PyError
  | zeroDivision (msg : String)
  | nameError (name : String)
  | typeError (msg : String)
deriving DecidableEq, Repr

/-- The text used by `str(e)` in the `except` branch of `calculate`. -/
def pyErrorMsg : PyError → String
  | .zeroDivision m => m
  | .nameError n => "name " ++ n ++ " is not defined"
  | .typeError m => m

/-- Outcome of evaluating an expression: an integer value, a raised
exception, or a non-integer (float) value, which is outside the modelled
integer fragment. -/
inductive PyOutcome
  | val (i : Int)
  | exc (e : PyError)
  | nonInt
deriving DecidableEq, Repr

/-- Abstract syntax of the permitted arithmetic expressions (integer
fragment).  `floordiv` is Python `//`, `modOp` is `%`, `powOp` is `**`;
`call1 f a` and `call2 f a b` are calls `f(a)` and `f(a, b)` where `f`
is an arbitrary name, resolved against the restricted namespace. -/
inductive Expr
  | lit (n : Int)
  | neg (a : Expr)
  | add (a b : Expr)
  | sub (a b : Expr)
  | mul (a b : Expr)
  | floordiv (a b : Expr)
  | modOp (a b : Expr)
  | powOp (a b : Expr)
  | call1 (f : String) (a : Expr)
  | call2 (f : String) (a b : Expr)
deriving DecidableEq, Repr

/-- The callable names of the restricted namespace in `calculate`
(`agent.py`, lines 50-58).  The namespace additionally defines
`__builtins__` as an empty dict, handled separately below. -/
def allowed_names : List String := ["abs", "round", "min", "max", "sum", "pow"]

/-- Python left-to-right propagation of exceptions through a binary
operation: the left operand is evaluated first. -/
def liftBin (k : Int → Int → PyOutcome) : PyOutcome → PyOutcome → PyOutcome
  | .val v, .val w => k v w
  | .exc e, _ => .exc e
  | .nonInt, _ => .nonInt
  | .val _, .exc e => .exc e
  | .val _, .nonInt => .nonInt

/-- Semantics of a one-argument call to a permitted name, on an integer
argument.  `abs` and `round` return integers; `min`, `max` and `sum`
raise `TypeError` (an int is not iterable); `pow` raises `TypeError`
(missing argument). -/
def apply1 (f : String) (v : Int) : PyOutcome :=
  if f = "abs" then .val |v|
  else if f = "round" then .val v
  else if f = "pow" then .exc (.typeError "pow expected at least 2 arguments, got 1")
  else .exc (.typeError "int object is not iterable")

/-- The quotient computed by CPython's `divmod_near`
(`Objects/longobject.c`): `v` divided by `m`, rounded to the nearest
integer, with ties going to the even quotient.  Expressed through the
flooring quotient and remainder: the quotient is incremented exactly
when twice the remainder exceeds `m`, or equals `m` with an odd
flooring quotient. -/
def divmodNear (v m : Int) : Int :=
  if 2 * v.fmod m < m then v.fdiv m
  else if m < 2 * v.fmod m then v.fdiv m + 1
  else if v.fdiv m % 2 = 0 then v.fdiv m else v.fdiv m + 1

/-- CPython `int.__round__(v, d)` (`long_round` in
`Objects/longobject.c`): for `d ≥ 0` the integer is returned unchanged;
for `d < 0` the result is `divmod_near(v, 10^(-d))[0] * 10^(-d)`, the
multiple of `10^(-d)` nearest to `v` with ties to the even multiple —
so `round(50, -2) = 0` and `round(25, -1) = 20`. -/
def pyRoundInt (v d : Int) : Int :=
  if 0 ≤ d then v
  else divmodNear v (10 ^ (-d).toNat) * 10 ^ (-d).toNat

/-- Semantics of a two-argument call to a permitted name, on integer
arguments.  `round(x, ndigits)` on an int follows CPython's banker's
rounding to a power of ten (`pyRoundInt`); `pow` with a negative
exponent yields a float (outside the fragment) except for base 0,
which raises `ZeroDivisionError`. -/
def apply2 (f : String) (v w : Int) : PyOutcome :=
  if f = "min" then .val (min v w)
  else if f = "max" then .val (max v w)
  else if f = "round" then .val (pyRoundInt v w)
  else if f = "pow" then
    if 0 ≤ w then .val (v ^ w.toNat)
    else if v = 0 then .exc (.zeroDivision "0.0 cannot be raised to a negative power")
    else .nonInt
  else if f = "abs" then .exc (.typeError "abs takes exactly one argument, 2 given")
  else .exc (.typeError "int object is not iterable")

/-- Evaluation of the embedded expression language under CPython
semantics on integers: `//` is flooring division (`Int.fdiv`), `%` is
flooring modulus (`Int.fmod`), both raising `ZeroDivisionError` on a
zero divisor; `**` with a negative exponent yields a float (marker
`nonInt`) except for base 0; a call resolves its name first (Python
evaluates the callee before the arguments), raising `NameError` for any
name the restricted namespace does not define. -/
def evalPy : Expr → PyOutcome
  | .lit n => .val n
  | .neg a =>
    match evalPy a with
    | .val v => .val (-v)
    | .exc e => .exc e
    | .nonInt => .nonInt
  | .add a b => liftBin (fun x y => .val (x + y)) (evalPy a) (evalPy b)
  | .sub a b => liftBin (fun x y => .val (x - y)) (evalPy a) (evalPy b)
  | .mul a b => liftBin (fun x y => .val (x * y)) (evalPy a) (evalPy b)
  | .floordiv a b => liftBin (fun x y =>
      if y = 0 then .exc (.zeroDivision "integer division or modulo by zero")
      else .val (Int.fdiv x y)) (evalPy a) (evalPy b)
  | .modOp a b => liftBin (fun x y =>
      if y = 0 then .exc (.zeroDivision "integer division or modulo by zero")
      else .val (Int.fmod x y)) (evalPy a) (evalPy b)
  | .powOp a b => liftBin (fun x y =>
      if 0 ≤ y then .val (x ^ y.toNat)
      else if x = 0 then .exc (.zeroDivision "0.0 cannot be raised to a negative power")
      else .nonInt) (evalPy a) (evalPy b)
  | .call1 f a =>
    if f ∈ allowed_names then
      match evalPy a with
      | .val v => apply1 f v
      | .exc e => .exc e
      | .nonInt => .nonInt
    else if f = "__builtins__" then
      match evalPy a with
      | .val _ => .exc (.typeError "dict object is not callable")
      | .exc e => .exc e
      | .nonInt => .nonInt
    else .exc (.nameError f)
  | .call2 f a b =>
    if f ∈ allowed_names then
      liftBin (fun x y => apply2 f x y) (evalPy a) (evalPy b)
    else if f = "__builtins__" then
      liftBin (fun _ _ => .exc (.typeError "dict object is not callable")) (evalPy a) (evalPy b)
    else .exc (.nameError f)

/-- The `calculate` tool (`agent.py`, lines 39-62): evaluate, and format
either the success string or the error string.  `none` marks expressions
whose Python value is a non-integer float, outside the modelled integer
fragment; on every modelled expression `calculate` returns a string and
never propagates an exception, matching the `try`/`except` structure of
the source. -/
def calculate (expression : Expr) : Option String :=
  match evalPy expression with
  | .val r => some ("The result is: " ++ toString r)
  | .exc e => some ("Error calculating expression: " ++ pyErrorMsg e)
  | .nonInt => none

/-- Spec-side rounding of `v` to the nearest multiple of `m`, ties to
even, phrased independently of `divmodNear` through the exact rational
quotient: the half-up rounded quotient `⌊v / m + 1 / 2⌋`, corrected
down by one exactly when `v / m + 1 / 2` is itself that integer (the
tie case) and that integer is odd. -/
def halfEvenQuot (v m : Int) : Int :=
  if (v : ℚ) / (m : ℚ) + 1 / 2 = (⌊(v : ℚ) / (m : ℚ) + 1 / 2⌋ : ℚ) ∧
      ⌊(v : ℚ) / (m : ℚ) + 1 / 2⌋ % 2 ≠ 0
  then ⌊(v : ℚ) / (m : ℚ) + 1 / 2⌋ - 1
  else ⌊(v : ℚ) / (m : ℚ) + 1 / 2⌋

/-- Spec-side mathematical denotation of an expression, written
independently of `evalPy`: `//` is the floor of the exact rational
quotient, `%` is the corresponding remainder, two-argument `round`
rounds to the nearest multiple of the power of ten with ties to even
(`halfEvenQuot`, phrased through the rational floor), and only the
mathematical functions named by the spec (`abs`, `round`, `min`, `max`,
`pow`) have values.  `none` where no integer value is mathematically
determined. -/
def mathBin (k : Int → Int → Option Int) : Option Int → Option Int → Option Int
  | some x, some y => k x y
  | _, _ => none

def mathValue : Expr → Option Int
  | .lit n => some n
  | .neg a => (mathValue a).map (fun x => -x)
  | .add a b => mathBin (fun x y => some (x + y)) (mathValue a) (mathValue b)
  | .sub a b => mathBin (fun x y => some (x - y)) (mathValue a) (mathValue b)
  | .mul a b => mathBin (fun x y => some (x * y)) (mathValue a) (mathValue b)
  | .floordiv a b => mathBin (fun x y =>
      if y = 0 then none else some ⌊(x : ℚ) / (y : ℚ)⌋) (mathValue a) (mathValue b)
  | .modOp a b => mathBin (fun x y =>
      if y = 0 then none else some (x - y * ⌊(x : ℚ) / (y : ℚ)⌋)) (mathValue a) (mathValue b)
  | .powOp a b => mathBin (fun x y =>
      if 0 ≤ y then some (x ^ y.toNat) else none) (mathValue a) (mathValue b)
  | .call1 f a =>
    if f = "abs" then (mathValue a).map (fun x => |x|)
    else if f = "round" then mathValue a
    else none
  | .call2 f a b =>
    if f = "min" then mathBin (fun x y => some (min x y)) (mathValue a) (mathValue b)
    else if f = "max" then mathBin (fun x y => some (max x y)) (mathValue a) (mathValue b)
    else if f = "round" then mathBin (fun x y =>
      if 0 ≤ y then some x
      else some (halfEvenQuot x (10 ^ (-y).toNat) * 10 ^ (-y).toNat)) (mathValue a) (mathValue b)
    else if f = "pow" then mathBin (fun x y =>
      if 0 ≤ y then some (x ^ y.toNat) else none) (mathValue a) (mathValue b)
    else none

/-! ### Flooring division agrees with the rational floor -/

/-- For a negative modulus, Python's flooring remainder lies in `(b, 0]`. -/
theorem fmod_bounds_of_neg (a : ℤ) {b : ℤ} (hb : b < 0) :
    b < a.fmod b ∧ a.fmod b ≤ 0 := by
  cases b with
  | ofNat n => exact absurd hb (Int.ofNat_nonneg n).not_lt
  | negSucc n =>
    cases a with
    | ofNat m =>
      cases m with
      | zero =>
        have h0 : Int.fmod (Int.ofNat 0) (Int.negSucc n) = 0 := rfl
        rw [h0, Int.negSucc_eq]
        omega
      | succ k =>
        have hk : k % (n + 1) < n + 1 := Nat.mod_lt _ (Nat.succ_pos n)
        have h1 : Int.fmod (Int.ofNat (k + 1)) (Int.negSucc n) =
            Int.subNatNat (k % (n + 1)) n := rfl
        rw [h1, Int.subNatNat_eq_coe, Int.negSucc_eq]
        omega
    | negSucc m =>
      have hk : (m + 1) % (n + 1) < n + 1 := Nat.mod_lt _ (Nat.succ_pos n)
      have h1 : Int.fmod (Int.negSucc m) (Int.negSucc n) =
          -(((m + 1) % (n + 1) : ℕ) : ℤ) := rfl
      rw [h1, Int.negSucc_eq]
      omega

/-- Python's flooring division `//` computes the floor of the exact
rational quotient. -/
theorem fdiv_eq_rat_floor (a : ℤ) {b : ℤ} (hb : b ≠ 0) :
    a.fdiv b = ⌊(a : ℚ) / (b : ℚ)⌋ := by
  have hbQ : (b : ℚ) ≠ 0 := Int.cast_ne_zero.mpr hb
  have hadd : b * a.fdiv b + a.fmod b = a := Int.fdiv_add_fmod a b
  have hquot : (a : ℚ) / b = (a.fdiv b : ℚ) + (a.fmod b : ℚ) / b := by
    have hc : ((b : ℚ) * (a.fdiv b : ℚ) + (a.fmod b : ℚ)) = (a : ℚ) := by
      exact_mod_cast hadd
    rw [← hc, add_div, mul_comm, mul_div_assoc, div_self hbQ, mul_one]
  have hfrac : 0 ≤ (a.fmod b : ℚ) / b ∧ (a.fmod b : ℚ) / b < 1 := by
    rcases lt_or_gt_of_ne hb with hneg | hpos
    · obtain ⟨h1, h2⟩ := fmod_bounds_of_neg a hneg
      have h1Q : (b : ℚ) < (a.fmod b : ℚ) := by exact_mod_cast h1
      have h2Q : (a.fmod b : ℚ) ≤ 0 := by exact_mod_cast h2
      have hnegQ : (b : ℚ) < 0 := by exact_mod_cast hneg
      constructor
      · exact div_nonneg_iff.mpr (Or.inr ⟨h2Q, hnegQ.le⟩)
      · rw [div_lt_iff_of_neg hnegQ]
        linarith
    · constructor
      · exact div_nonneg (by exact_mod_cast Int.fmod_nonneg' a hpos)
          (by exact_mod_cast hpos.le)
      · rw [div_lt_one (by exact_mod_cast hpos)]
        exact_mod_cast Int.fmod_lt_of_pos a hpos
  symm
  rw [Int.floor_eq_iff]
  constructor
  · rw [hquot]
    linarith [hfrac.1]
  · rw [hquot]
    linarith [hfrac.2]

/-- Python's flooring remainder `%` equals the mathematical remainder
with respect to the rational floor of the quotient. -/
theorem fmod_eq_rat_remainder (a : ℤ) {b : ℤ} (hb : b ≠ 0) :
    a.fmod b = a - b * ⌊(a : ℚ) / (b : ℚ)⌋ := by
  have hadd : b * a.fdiv b + a.fmod b = a := Int.fdiv_add_fmod a b
  rw [← fdiv_eq_rat_floor a hb]
  omega

/-- CPython's `divmod_near` quotient coincides with the spec-side
rational half-even rounded quotient. -/
theorem divmodNear_eq_halfEvenQuot (v : ℤ) {m : ℤ} (hm0 : 0 < m) :
    divmodNear v m = halfEvenQuot v m := by
  have hmQ : (0 : ℚ) < (m : ℚ) := by exact_mod_cast hm0
  have hmQ0 : (m : ℚ) ≠ 0 := ne_of_gt hmQ
  have hr0 : 0 ≤ v.fmod m := Int.fmod_nonneg' v hm0
  have hrm : v.fmod m < m := Int.fmod_lt_of_pos v hm0
  have hadd : m * v.fdiv m + v.fmod m = v := Int.fdiv_add_fmod v m
  have hquot : (v : ℚ) / m = (v.fdiv m : ℚ) + (v.fmod m : ℚ) / m := by
    have hc : ((m : ℚ) * (v.fdiv m : ℚ) + (v.fmod m : ℚ)) = (v : ℚ) := by
      exact_mod_cast hadd
    rw [← hc, add_div, mul_comm, mul_div_assoc, div_self hmQ0, mul_one]
  have hs0 : 0 ≤ (v.fmod m : ℚ) / m := div_nonneg (by exact_mod_cast hr0) hmQ.le
  have hs1 : (v.fmod m : ℚ) / m < 1 := by
    rw [div_lt_one hmQ]; exact_mod_cast hrm
  unfold divmodNear halfEvenQuot
  rcases lt_trichotomy (2 * v.fmod m) m with hlt | heq | hgt
  · -- twice the remainder below m: round down, no tie
    have hsh : (v.fmod m : ℚ) / m < 1 / 2 := by
      rw [div_lt_div_iff₀ hmQ (by norm_num)]
      have h2 : (2 : ℚ) * (v.fmod m : ℚ) < (m : ℚ) := by exact_mod_cast hlt
      linarith
    have hfloor : ⌊(v : ℚ) / m + 1 / 2⌋ = v.fdiv m := by
      rw [hquot, add_assoc, Int.floor_int_add]
      have h0 : ⌊(v.fmod m : ℚ) / m + 1 / 2⌋ = 0 := by
        rw [Int.floor_eq_zero_iff, Set.mem_Ico]
        exact ⟨by linarith, by linarith⟩
      rw [h0, add_zero]
    have hnotie : ¬((v : ℚ) / m + 1 / 2 = (⌊(v : ℚ) / m + 1 / 2⌋ : ℚ)) := by
      rw [hfloor, hquot]
      intro hcon
      have : (v.fmod m : ℚ) / m = -(1 / 2) := by linarith
      linarith
    rw [if_pos hlt, if_neg (fun hand => hnotie hand.1), hfloor]
  · -- twice the remainder equals m: the tie case
    have hsh : (v.fmod m : ℚ) / m = 1 / 2 := by
      rw [div_eq_div_iff hmQ0 (by norm_num)]
      have h2 : (2 : ℚ) * (v.fmod m : ℚ) = (m : ℚ) := by exact_mod_cast heq
      linarith
    have hfloor : ⌊(v : ℚ) / m + 1 / 2⌋ = v.fdiv m + 1 := by
      rw [hquot, hsh]
      have hcast : (v.fdiv m : ℚ) + 1 / 2 + 1 / 2 = ((v.fdiv m + 1 : ℤ) : ℚ) := by
        push_cast; ring
      rw [hcast, Int.floor_intCast]
    have htie : (v : ℚ) / m + 1 / 2 = (⌊(v : ℚ) / m + 1 / 2⌋ : ℚ) := by
      rw [hfloor, hquot, hsh]; push_cast; ring
    have hn1 : ¬(2 * v.fmod m < m) := by omega
    have hn2 : ¬(m < 2 * v.fmod m) := by omega
    by_cases hq : v.fdiv m % 2 = 0
    · rw [if_neg hn1, if_neg hn2, if_pos hq,
        if_pos ⟨htie, by rw [hfloor]; omega⟩, hfloor]
      omega
    · rw [if_neg hn1, if_neg hn2, if_neg hq,
        if_neg (fun hand => by rw [hfloor] at hand; omega), hfloor]
  · -- twice the remainder above m: round up, no tie
    have hsh : 1 / 2 < (v.fmod m : ℚ) / m := by
      rw [div_lt_div_iff₀ (by norm_num) hmQ]
      have h2 : (m : ℚ) < (2 : ℚ) * (v.fmod m : ℚ) := by exact_mod_cast hgt
      linarith
    have hfloor : ⌊(v : ℚ) / m + 1 / 2⌋ = v.fdiv m + 1 := by
      rw [hquot, add_assoc, Int.floor_int_add]
      have h1 : ⌊(v.fmod m : ℚ) / m + 1 / 2⌋ = 1 := by
        rw [Int.floor_eq_iff]
        constructor
        · push_cast; linarith
        · push_cast; linarith
      rw [h1]
    have hnotie : ¬((v : ℚ) / m + 1 / 2 = (⌊(v : ℚ) / m + 1 / 2⌋ : ℚ)) := by
      rw [hfloor, hquot]
      intro hcon
      have : (v.fmod m : ℚ) / m = 1 / 2 := by push_cast at hcon; linarith
      linarith
    have hn1 : ¬(2 * v.fmod m < m) := by omega
    rw [if_neg hn1, if_pos hgt, if_neg (fun hand => hnotie hand.1), hfloor]

/-- `pyRoundInt` agrees with the spec-side formulation used by
`mathValue`. -/
theorem pyRoundInt_eq_spec (x y : Int) :
    pyRoundInt x y =
      if 0 ≤ y then x else halfEvenQuot x (10 ^ (-y).toNat) * 10 ^ (-y).toNat := by
  unfold pyRoundInt
  by_cases hy : 0 ≤ y
  · rw [if_pos hy, if_pos hy]
  · rw [if_neg hy, if_neg hy,
      divmodNear_eq_halfEvenQuot x (pow_pos (by norm_num) (-y).toNat)]

/-! ### Soundness of the evaluator against the mathematical denotation -/

theorem liftBin_val {k : Int → Int → PyOutcome} {oa ob : PyOutcome} {v : Int}
    (h : liftBin k oa ob = .val v) :
    ∃ x y, oa = .val x ∧ ob = .val y ∧ k x y = .val v := by
  cases oa with
  | val x =>
    cases ob with
    | val y => exact ⟨x, y, rfl, rfl, h⟩
    | exc e => simp [liftBin] at h
    | nonInt => simp [liftBin] at h
  | exc e => simp [liftBin] at h
  | nonInt => simp [liftBin] at h

/-- If the embedded Python evaluation of an expression succeeds with an
integer value, that value is the mathematical denotation. -/
theorem evalPy_sound : ∀ (e : Expr) (v : Int), evalPy e = .val v → mathValue e = some v := by
  intro e
  induction e with
  | lit n => intro v h; simpa [evalPy, mathValue] using h
  | neg a ih =>
    intro v h
    simp only [evalPy] at h
    cases ha : evalPy a with
    | val x =>
      rw [ha] at h
      simp only [PyOutcome.val.injEq] at h
      simp [mathValue, ih x ha, ← h]
    | exc e => rw [ha] at h; simp at h
    | nonInt => rw [ha] at h; simp at h
  | add a b iha ihb =>
    intro v h
    simp only [evalPy] at h
    obtain ⟨x, y, hx, hy, hk⟩ := liftBin_val h
    simp only [PyOutcome.val.injEq] at hk
    simp [mathValue, mathBin, iha x hx, ihb y hy, hk]
  | sub a b iha ihb =>
    intro v h
    simp only [evalPy] at h
    obtain ⟨x, y, hx, hy, hk⟩ := liftBin_val h
    simp only [PyOutcome.val.injEq] at hk
    simp [mathValue, mathBin, iha x hx, ihb y hy, hk]
  | mul a b iha ihb =>
    intro v h
    simp only [evalPy] at h
    obtain ⟨x, y, hx, hy, hk⟩ := liftBin_val h
    simp only [PyOutcome.val.injEq] at hk
    simp [mathValue, mathBin, iha x hx, ihb y hy, hk]
  | floordiv a b iha ihb =>
    intro v h
    simp only [evalPy] at h
    obtain ⟨x, y, hx, hy, hk⟩ := liftBin_val h
    by_cases hy0 : y = 0
    · simp [hy0] at hk
    · simp only [hy0, if_false, PyOutcome.val.injEq] at hk
      simp [mathValue, mathBin, iha x hx, ihb y hy, hy0, ← hk, fdiv_eq_rat_floor x hy0]
  | modOp a b iha ihb =>
    intro v h
    simp only [evalPy] at h
    obtain ⟨x, y, hx, hy, hk⟩ := liftBin_val h
    by_cases hy0 : y = 0
    · simp [hy0] at hk
    · simp only [hy0, if_false, PyOutcome.val.injEq] at hk
      simp [mathValue, mathBin, iha x hx, ihb y hy, hy0, ← hk, fmod_eq_rat_remainder x hy0]
  | powOp a b iha ihb =>
    intro v h
    simp only [evalPy] at h
    obtain ⟨x, y, hx, hy, hk⟩ := liftBin_val h
    by_cases hy0 : 0 ≤ y
    · simp only [hy0, if_true, PyOutcome.val.injEq] at hk
      simp [mathValue, mathBin, iha x hx, ihb y hy, hy0, hk]
    · by_cases hx0 : x = 0 <;> simp [hy0, hx0] at hk
  | call1 f a ih =>
    intro v h
    simp only [evalPy] at h
    by_cases hf : f ∈ allowed_names
    · rw [if_pos hf] at h
      cases ha : evalPy a with
      | val x =>
        rw [ha] at h
        have h' : apply1 f x = .val v := h
        have hm := ih x ha
        simp only [allowed_names, List.mem_cons, List.not_mem_nil, or_false] at hf
        rcases hf with hf | hf | hf | hf | hf | hf <;> subst hf <;>
          simp [apply1] at h' <;> simp [mathValue, hm, ← h']
      | exc e => rw [ha] at h; simp at h
      | nonInt => rw [ha] at h; simp at h
    · rw [if_neg hf] at h
      by_cases hb : f = "__builtins__"
      · rw [if_pos hb] at h
        cases ha : evalPy a with
        | val x => rw [ha] at h; simp at h
        | exc e => rw [ha] at h; simp at h
        | nonInt => rw [ha] at h; simp at h
      · rw [if_neg hb] at h; simp at h
  | call2 f a b iha ihb =>
    intro v h
    simp only [evalPy] at h
    by_cases hf : f ∈ allowed_names
    · rw [if_pos hf] at h
      obtain ⟨x, y, hx, hy, hk⟩ := liftBin_val h
      have hma := iha x hx
      have hmb := ihb y hy
      simp only [allowed_names, List.mem_cons, List.not_mem_nil, or_false] at hf
      rcases hf with hf | hf | hf | hf | hf | hf <;> subst hf <;>
        simp [apply2] at hk
      · rw [pyRoundInt_eq_spec] at hk
        by_cases hy0 : 0 ≤ y
        · rw [if_pos hy0] at hk
          simp [mathValue, mathBin, hma, hmb, hy0, ← hk]
        · rw [if_neg hy0] at hk
          simp [mathValue, mathBin, hma, hmb, hy0, ← hk]
      · simp [mathValue, mathBin, hma, hmb, ← hk]
      · simp [mathValue, mathBin, hma, hmb, ← hk]
      · by_cases hy0 : 0 ≤ y
        · simp [hy0] at hk
          simp [mathValue, mathBin, hma, hmb, hy0, ← hk]
        · by_cases hx0 : x = 0 <;> simp [hy0, hx0] at hk
    · rw [if_neg hf] at h
      by_cases hb : f = "__builtins__"
      · rw [if_pos hb] at h
        rcases liftBin_val h with ⟨x, y, _, _, hk⟩
        simp at hk
      · rw [if_neg hb] at h; simp at h

example : evalPy (.add (.lit 2) (.lit 2)) = .val 4 := by decide
example : calculate (.add (.lit 2) (.lit 2)) = some "The result is: 4" := by decide
example : evalPy (.floordiv (.lit 7) (.lit (-2))) = .val (-4) := by decide
example : evalPy (.call1 "__import__" (.lit 0)) = .exc (.nameError "__import__") := by decide
example : evalPy (.call2 "round" (.lit 50) (.lit (-2))) = .val 0 := by decide
example : evalPy (.call2 "round" (.lit 25) (.lit (-1))) = .val 20 := by decide
example : evalPy (.call2 "round" (.lit 150) (.lit (-2))) = .val 200 := by decide
example : evalPy (.call2 "round" (.lit (-35)) (.lit (-1))) = .val (-40) := by decide
example : evalPy (.call2 "round" (.lit 5) (.lit 2)) = .val 5 := by decide
example : evalPy (.floordiv (.lit 100) (.call2 "round" (.lit 50) (.lit (-2)))) =
    .exc (.zeroDivision "integer division or modulo by zero") := by decide
example : evalPy (.floordiv (.lit 100) (.sub (.lit 50) (.call2 "round" (.lit 50) (.lit (-2))))) =
    .val 2 := by decide
example : mathValue (.call2 "round" (.lit 50) (.lit (-2))) = some 0 :=
  evalPy_sound _ 0 (by decide)
example : mathValue (.call2 "round" (.lit 25) (.lit (-1))) = some 20 :=
  evalPy_sound _ 20 (by decide)
example : calculate (.floordiv (.lit 1) (.lit 0)) =
    some "Error calculating expression: integer division or modulo by zero" := by decide

/-! ## Part 2: the conversation relay driver (`src/test_agent_conversation.py`)

`send_to_langchain` (lines 27-88) and `send_to_google_adk` (lines
91-151) build identical `message/send` payloads (the LangChain variant
additionally repeats `messageId` at params level, which no claim
depends on) and share identical response post-processing, embedded once
below.  `simulate_conversation` (lines 154-238) is the round loop.

Python truthiness (`if context_id:`, `if new_task_id:`, `context_id or
shared_thread_id`) treats both `None` and the empty string as falsy; it
is modelled by `truthy` on `Option String`.  UUID generation (request
`id`/`messageId`), console printing and the inter-round sleep are
elided.  The network is modelled by an environment function per
endpoint giving the outcome of the round-indexed HTTP POST.
-/

/-- Python truthiness of an optional string. -/
def truthy : Option String → Bool
  | none => false
  | some s => !s.isEmpty

/-- The `result` object of a successful JSON-RPC body:
`result.id`, `result.contextId` (each possibly absent) and the text at
`result.artifacts[0].parts[0].text` (`none` when that path is missing,
in which case the Python indexing raises and the `except` branch
returns a failure). -/
structure ResultObj where
  id : Option String
  contextId : Option String
  artifactsText : Option String
deriving DecidableEq, Repr

/-- The `error` object of a JSON-RPC body; `message` may be absent
(`result["error"].get("message", "Unknown error")`). -/
structure ErrObj where
  message : Option String
deriving DecidableEq, Repr

/-- A parsed JSON-RPC response body: optional `error` and `result`
fields. -/
structure RpcBody where
  errorField : Option ErrObj
  resultField : Option ResultObj
deriving DecidableEq, Repr

/-- Outcome of one HTTP POST: either the request raised an exception
(connection failure, malformed JSON on a 200, ...) with message `msg`,
or an HTTP response with a status, a parsed body and its raw text. -/
inductive NetResult
  | exn (msg : String)
  | http (status : Nat) (body : RpcBody) (raw : String)
deriving DecidableEq, Repr

/-- The tuple `(success, text, task_id, context_id)` returned by both
send functions. -/
structure SendResult where
  success : Bool
  text : String
  taskId : Option String
  contextId : Option String
deriving DecidableEq, Repr

/-- Shared response post-processing of `send_to_langchain` (lines
67-88) and `send_to_google_adk` (lines 130-151): status 200 required;
then an `error` field, a missing `result` key, or a missing
`artifacts[0].parts[0].text` path each yield a failure tuple with both
identifiers `None`; otherwise the success tuple carries `result.id`,
`result.contextId` and the artifact text. -/
def processNet : NetResult → SendResult
  | .exn m => ⟨false, "Exception: " ++ m, none, none⟩
  | .http status body raw =>
    if status = 200 then
      match body.errorField with
      | some e => ⟨false, e.message.getD "Unknown error", none, none⟩
      | none =>
        match body.resultField with
        | none => ⟨false, "Response missing result key", none, none⟩
        | some obj =>
          match obj.artifactsText with
          | none => ⟨false, "Exception: KeyError", none, none⟩
          | some t => ⟨true, t, obj.id, obj.contextId⟩
    else ⟨false, "Error " ++ toString status ++ ": " ++ raw.take 200, none, none⟩

/-- The message object built by both send functions (lines 38-48 and
103-113): `contextId` and `taskId` are added only when truthy. -/
structure MsgEnvelope where
  role : String
  text : String
  contextId : Option String
  taskId : Option String
deriving DecidableEq, Repr

def buildMessage (text : String) (context_id task_id : Option String) : MsgEnvelope :=
  { role := "user"
    text := text
    contextId := if truthy context_id then context_id else none
    taskId := if truthy task_id then task_id else none }

/-- The JSON-RPC payload of a `message/send` request, with the
top-level `metadata.thread_id`. -/
structure Payload where
  method : String
  message : MsgEnvelope
  threadId : String
deriving DecidableEq, Repr

def buildPayload (text : String) (thread_id : String)
    (context_id task_id : Option String) : Payload :=
  { method := "message/send"
    message := buildMessage text context_id task_id
    threadId := thread_id }

/-- The driver's mutable state in `simulate_conversation`:
`message`, `shared_thread_id`, the single shared `context_id`, and the
two per-endpoint task identifiers (lines 168-174). -/
structure RelayState where
  message : String
  shared_thread_id : String
  context_id : Option String
  langchain_task_id : Option String
  adk_task_id : Option String
deriving DecidableEq, Repr

/-- `thread_id = context_id or shared_thread_id` (lines 188 and 211). -/
def currentThread (st : RelayState) : String :=
  match st.context_id with
  | some c => if c.isEmpty then st.shared_thread_id else c
  | none => st.shared_thread_id

/-- `if new_context_id: context_id = new_context_id;
shared_thread_id = new_context_id` (lines 201-203 and 222-224). -/
def updCtx (st : RelayState) (nc : Option String) : RelayState :=
  match nc with
  | some c => if c.isEmpty then st else
      { st with context_id := some c, shared_thread_id := c }
  | none => st

/-- State update after a successful send to the LangChain endpoint
(lines 196-203): store the response text as the next message, keep the
task identifier unless the response supplied a truthy one, likewise for
the context identifier. -/
def updateLangchain (st : RelayState) (r : SendResult) : RelayState :=
  updCtx
    { st with
      message := r.text
      langchain_task_id := if truthy r.taskId then r.taskId else st.langchain_task_id }
    r.contextId

/-- State update after a successful send to the Google ADK endpoint
(lines 217-224). -/
def updateAdk (st : RelayState) (r : SendResult) : RelayState :=
  updCtx
    { st with
      message := r.text
      adk_task_id := if truthy r.taskId then r.taskId else st.adk_task_id }
    r.contextId

/-- One observed interaction: which endpoint was addressed (`toAdk`),
the request payload actually sent, and the processed response. -/
structure Step where
  toAdk : Bool
  payload : Payload
  res : SendResult
deriving DecidableEq, Repr

/-- One send to the LangChain endpoint from state `st`: the payload is
built from the current message, `thread_id = context_id or
shared_thread_id`, the shared `context_id`, and `None` for `task_id`
(line 193); the response outcome `r` is post-processed. -/
def stepToA (st : RelayState) (r : NetResult) : Step :=
  ⟨false, buildPayload st.message (currentThread st) st.context_id none, processNet r⟩

/-- One send to the Google ADK endpoint from state `st` (line 214). -/
def stepToB (st : RelayState) (r : NetResult) : Step :=
  ⟨true, buildPayload st.message (currentThread st) st.context_id none, processNet r⟩

/-- The round loop of `simulate_conversation` (lines 178-234), started
at round index `i` in state `st` with `n` rounds remaining.  Each round
sends to the LangChain endpoint first (always passing `None` for
`task_id`, line 193), breaks on failure, otherwise updates state, then
sends to the Google ADK endpoint (line 214), breaks on failure,
otherwise updates state and continues.  Returns the list of performed
sends and the final driver state. -/
def runRelay (envA envB : Nat → NetResult) : Nat → Nat → RelayState → List Step × RelayState
  | 0, _, st => ([], st)
  | n + 1, i, st =>
    let sA := stepToA st (envA i)
    if sA.res.success then
      let st1 := updateLangchain st sA.res
      let sB := stepToB st1 (envB i)
      if sB.res.success then
        let rest := runRelay envA envB n (i + 1) (updateAdk st1 sB.res)
        (sA :: sB :: rest.1, rest.2)
      else (sA :: [sB], st1)
    else ([sA], st)

/-- `simulate_conversation`: a fresh shared thread identifier `tid`, no
context identifier, no task identifiers, `num_rounds` rounds starting
from `initial_message` (lines 168-178). -/
def simulate_conversation (envA envB : Nat → NetResult) (num_rounds : Nat)
    (initial_message tid : String) : List Step × RelayState :=
  runRelay envA envB num_rounds 0 ⟨initial_message, tid, none, none, none⟩

/-! ### Trace predicates for the relay driver -/

/-- `context_id or shared_thread_id` as a function of the tracked pair. -/
def fallbackThread (c : Option String) (tid : String) : String :=
  match c with
  | some x => if x.isEmpty then tid else x
  | none => tid

/-- The shared context identifier after observing one more step:
it changes exactly when a successful response carries a truthy
`contextId`. -/
def stepCtx (c : Option String) (s : Step) : Option String :=
  if s.res.success && truthy s.res.contextId then s.res.contextId else c

/-- The shared thread identifier after observing one more step
(updated together with the context identifier). -/
def stepTid (tid : String) (s : Step) : String :=
  if s.res.success && truthy s.res.contextId then (s.res.contextId).getD tid else tid

/-- Along a trace: every request omits `taskId`, and carries `contextId`
exactly equal to the shared context identifier accumulated from the
previous (successful) responses of either endpoint — `none` before any
endpoint assigned one. -/
def envelopeCtxOk : Option String → List Step → Prop
  | _, [] => True
  | c, s :: rest =>
      s.payload.message.taskId = none ∧
      s.payload.message.contextId = c ∧
      envelopeCtxOk (stepCtx c s) rest

/-- Along a trace: no request ever carries a `taskId` field. -/
def noTaskIdSent : List Step → Prop
  | [] => True
  | s :: rest => s.payload.message.taskId = none ∧ noTaskIdSent rest

/-- Along a trace: a failed send is the last send performed. -/
def abortsOnFailure : List Step → Prop
  | [] => True
  | s :: rest => (s.res.success = false → rest = []) ∧ abortsOnFailure rest

/-- Along a trace: every request's `metadata.thread_id` equals the
current shared context identifier, falling back to the shared thread
identifier while none is assigned. -/
def threadIdsOk : Option String → String → List Step → Prop
  | _, _, [] => True
  | c, tid, s :: rest =>
      s.payload.threadId = fallbackThread c tid ∧
      threadIdsOk (stepCtx c s) (stepTid tid s) rest

/-- A context identifier is well formed when absent or truthy (the
driver never stores a falsy non-`None` one). -/
def CtxInv (c : Option String) : Prop := c = none ∨ truthy c

theorem buildPayload_taskId (text thread : String) (c : Option String) :
    (buildPayload text thread c none).message.taskId = none := by
  simp [buildPayload, buildMessage, truthy]

theorem buildPayload_contextId (text thread : String) {c : Option String}
    (hc : CtxInv c) :
    (buildPayload text thread c none).message.contextId = c := by
  rcases hc with h | h
  · subst h; simp [buildPayload, buildMessage, truthy]
  · simp [buildPayload, buildMessage, h]

theorem updCtx_context_id (st : RelayState) (nc : Option String) :
    (updCtx st nc).context_id = if truthy nc then nc else st.context_id := by
  cases nc with
  | none => simp [updCtx, truthy]
  | some c =>
    by_cases hc : c.isEmpty <;> simp [updCtx, truthy, hc]

theorem updCtx_shared (st : RelayState) (nc : Option String) :
    (updCtx st nc).shared_thread_id =
      if truthy nc then nc.getD st.shared_thread_id else st.shared_thread_id := by
  cases nc with
  | none => simp [updCtx, truthy]
  | some c =>
    by_cases hc : c.isEmpty <;> simp [updCtx, truthy, hc]

theorem updateLangchain_context_id (st : RelayState) (r : SendResult) :
    (updateLangchain st r).context_id =
      if truthy r.contextId then r.contextId else st.context_id := by
  simp [updateLangchain, updCtx_context_id]

theorem updateAdk_context_id (st : RelayState) (r : SendResult) :
    (updateAdk st r).context_id =
      if truthy r.contextId then r.contextId else st.context_id := by
  simp [updateAdk, updCtx_context_id]

theorem updateLangchain_shared (st : RelayState) (r : SendResult) :
    (updateLangchain st r).shared_thread_id =
      if truthy r.contextId then (r.contextId).getD st.shared_thread_id
      else st.shared_thread_id := by
  simp [updateLangchain, updCtx_shared]

theorem updateAdk_shared (st : RelayState) (r : SendResult) :
    (updateAdk st r).shared_thread_id =
      if truthy r.contextId then (r.contextId).getD st.shared_thread_id
      else st.shared_thread_id := by
  simp [updateAdk, updCtx_shared]

theorem ctxInv_step (c : Option String) (s : Step) (h : CtxInv c) :
    CtxInv (stepCtx c s) := by
  unfold stepCtx
  by_cases hcond : (s.res.success && truthy s.res.contextId) = true
  · rw [if_pos hcond]
    right
    exact (Bool.and_eq_true_iff.mp hcond).2
  · rw [if_neg hcond]
    exact h

/-! ### Unfolding lemmas for the round loop -/

theorem runRelay_zero (envA envB : Nat → NetResult) (i : Nat) (st : RelayState) :
    runRelay envA envB 0 i st = ([], st) := rfl

theorem runRelay_succ_failA (envA envB : Nat → NetResult) (n i : Nat) (st : RelayState)
    (hA : (stepToA st (envA i)).res.success = false) :
    runRelay envA envB (n + 1) i st = ([stepToA st (envA i)], st) := by
  simp [runRelay, hA]

theorem runRelay_succ_failB (envA envB : Nat → NetResult) (n i : Nat) (st : RelayState)
    (hA : (stepToA st (envA i)).res.success = true)
    (hB : (stepToB (updateLangchain st (stepToA st (envA i)).res) (envB i)).res.success = false) :
    runRelay envA envB (n + 1) i st =
      ([stepToA st (envA i),
        stepToB (updateLangchain st (stepToA st (envA i)).res) (envB i)],
       updateLangchain st (stepToA st (envA i)).res) := by
  simp [runRelay, hA, hB]

theorem runRelay_succ_ok (envA envB : Nat → NetResult) (n i : Nat) (st : RelayState)
    (hA : (stepToA st (envA i)).res.success = true)
    (hB : (stepToB (updateLangchain st (stepToA st (envA i)).res) (envB i)).res.success = true) :
    runRelay envA envB (n + 1) i st =
      (stepToA st (envA i) ::
        stepToB (updateLangchain st (stepToA st (envA i)).res) (envB i) ::
        (runRelay envA envB n (i + 1)
          (updateAdk (updateLangchain st (stepToA st (envA i)).res)
            (stepToB (updateLangchain st (stepToA st (envA i)).res) (envB i)).res)).1,
       (runRelay envA envB n (i + 1)
          (updateAdk (updateLangchain st (stepToA st (envA i)).res)
            (stepToB (updateLangchain st (stepToA st (envA i)).res) (envB i)).res)).2) := by
  simp [runRelay, hA, hB]

/-! ### Master invariants of the round loop -/

theorem currentThread_eq (st : RelayState) :
    currentThread st = fallbackThread st.context_id st.shared_thread_id := rfl

theorem stepCtx_eq_updateLangchain (st : RelayState) (r : NetResult)
    (hA : (stepToA st r).res.success = true) :
    stepCtx st.context_id (stepToA st r) = (updateLangchain st (stepToA st r).res).context_id := by
  simp [stepCtx, hA, updateLangchain_context_id]

theorem stepCtx_eq_updateAdk (st : RelayState) (r : NetResult)
    (hB : (stepToB st r).res.success = true) :
    stepCtx st.context_id (stepToB st r) = (updateAdk st (stepToB st r).res).context_id := by
  simp [stepCtx, hB, updateAdk_context_id]

theorem stepTid_eq_updateLangchain (st : RelayState) (r : NetResult)
    (hA : (stepToA st r).res.success = true) :
    stepTid st.shared_thread_id (stepToA st r) =
      (updateLangchain st (stepToA st r).res).shared_thread_id := by
  simp [stepTid, hA, updateLangchain_shared]

theorem stepTid_eq_updateAdk (st : RelayState) (r : NetResult)
    (hB : (stepToB st r).res.success = true) :
    stepTid st.shared_thread_id (stepToB st r) =
      (updateAdk st (stepToB st r).res).shared_thread_id := by
  simp [stepTid, hB, updateAdk_shared]

theorem runRelay_envelopeCtxOk (envA envB : Nat → NetResult) :
    ∀ (n i : Nat) (st : RelayState), CtxInv st.context_id →
      envelopeCtxOk st.context_id (runRelay envA envB n i st).1 := by
  intro n
  induction n with
  | zero => intro i st _; simp [runRelay_zero, envelopeCtxOk]
  | succ n ih =>
    intro i st hc
    by_cases hA : (stepToA st (envA i)).res.success = true
    · have hc1 : CtxInv (updateLangchain st (stepToA st (envA i)).res).context_id := by
        rw [← stepCtx_eq_updateLangchain st (envA i) hA]
        exact ctxInv_step _ _ hc
      by_cases hB : (stepToB (updateLangchain st (stepToA st (envA i)).res) (envB i)).res.success
          = true
      · rw [runRelay_succ_ok envA envB n i st hA hB]
        refine ⟨buildPayload_taskId _ _ _, buildPayload_contextId _ _ hc, ?_⟩
        rw [stepCtx_eq_updateLangchain st (envA i) hA]
        refine ⟨buildPayload_taskId _ _ _, buildPayload_contextId _ _ hc1, ?_⟩
        rw [stepCtx_eq_updateAdk _ (envB i) hB]
        exact ih (i + 1) _ (by rw [← stepCtx_eq_updateAdk _ (envB i) hB]; exact ctxInv_step _ _ hc1)
      · simp only [Bool.not_eq_true] at hB
        rw [runRelay_succ_failB envA envB n i st hA hB]
        refine ⟨buildPayload_taskId _ _ _, buildPayload_contextId _ _ hc, ?_⟩
        rw [stepCtx_eq_updateLangchain st (envA i) hA]
        exact ⟨buildPayload_taskId _ _ _, buildPayload_contextId _ _ hc1, trivial⟩
    · simp only [Bool.not_eq_true] at hA
      rw [runRelay_succ_failA envA envB n i st hA]
      exact ⟨buildPayload_taskId _ _ _, buildPayload_contextId _ _ hc, trivial⟩

theorem runRelay_noTaskIdSent (envA envB : Nat → NetResult) :
    ∀ (n i : Nat) (st : RelayState), noTaskIdSent (runRelay envA envB n i st).1 := by
  intro n
  induction n with
  | zero => intro i st; simp [runRelay_zero, noTaskIdSent]
  | succ n ih =>
    intro i st
    by_cases hA : (stepToA st (envA i)).res.success = true
    · by_cases hB : (stepToB (updateLangchain st (stepToA st (envA i)).res) (envB i)).res.success
          = true
      · rw [runRelay_succ_ok envA envB n i st hA hB]
        exact ⟨buildPayload_taskId _ _ _, buildPayload_taskId _ _ _, ih (i + 1) _⟩
      · simp only [Bool.not_eq_true] at hB
        rw [runRelay_succ_failB envA envB n i st hA hB]
        exact ⟨buildPayload_taskId _ _ _, buildPayload_taskId _ _ _, trivial⟩
    · simp only [Bool.not_eq_true] at hA
      rw [runRelay_succ_failA envA envB n i st hA]
      exact ⟨buildPayload_taskId _ _ _, trivial⟩

theorem runRelay_abortsOnFailure (envA envB : Nat → NetResult) :
    ∀ (n i : Nat) (st : RelayState), abortsOnFailure (runRelay envA envB n i st).1 := by
  intro n
  induction n with
  | zero => intro i st; simp [runRelay_zero, abortsOnFailure]
  | succ n ih =>
    intro i st
    by_cases hA : (stepToA st (envA i)).res.success = true
    · by_cases hB : (stepToB (updateLangchain st (stepToA st (envA i)).res) (envB i)).res.success
          = true
      · rw [runRelay_succ_ok envA envB n i st hA hB]
        refine ⟨fun h => ?_, fun h => ?_, ih (i + 1) _⟩
        · rw [hA] at h; cases h
        · rw [hB] at h; cases h
      · simp only [Bool.not_eq_true] at hB
        rw [runRelay_succ_failB envA envB n i st hA hB]
        exact ⟨fun h => (by rw [hA] at h; cases h), fun _ => rfl, trivial⟩
    · simp only [Bool.not_eq_true] at hA
      rw [runRelay_succ_failA envA envB n i st hA]
      exact ⟨fun _ => rfl, trivial⟩

theorem runRelay_threadIdsOk (envA envB : Nat → NetResult) :
    ∀ (n i : Nat) (st : RelayState),
      threadIdsOk st.context_id st.shared_thread_id (runRelay envA envB n i st).1 := by
  intro n
  induction n with
  | zero => intro i st; simp [runRelay_zero, threadIdsOk]
  | succ n ih =>
    intro i st
    by_cases hA : (stepToA st (envA i)).res.success = true
    · by_cases hB : (stepToB (updateLangchain st (stepToA st (envA i)).res) (envB i)).res.success
          = true
      · rw [runRelay_succ_ok envA envB n i st hA hB]
        refine ⟨currentThread_eq st, ?_⟩
        rw [stepCtx_eq_updateLangchain st (envA i) hA, stepTid_eq_updateLangchain st (envA i) hA]
        refine ⟨currentThread_eq _, ?_⟩
        rw [stepCtx_eq_updateAdk _ (envB i) hB, stepTid_eq_updateAdk _ (envB i) hB]
        exact ih (i + 1) _
      · simp only [Bool.not_eq_true] at hB
        rw [runRelay_succ_failB envA envB n i st hA hB]
        refine ⟨currentThread_eq st, ?_⟩
        rw [stepCtx_eq_updateLangchain st (envA i) hA, stepTid_eq_updateLangchain st (envA i) hA]
        exact ⟨currentThread_eq _, trivial⟩
    · simp only [Bool.not_eq_true] at hA
      rw [runRelay_succ_failA envA envB n i st hA]
      exact ⟨currentThread_eq st, trivial⟩

/-! ## Part 3: the adapter middleware (`set_thread_id_middleware`, `agent.py` lines 99-134)

The middleware reads the request body on POST requests, parses it as
JSON and extracts `metadata.thread_id`, with a bare `except: pass`
around the whole extraction (any parse or access error leaves the
thread identifier `None`).  If the thread identifier is truthy it
attaches an OpenTelemetry context; it then opens a span (the `with`
statement closes it on both normal and exceptional exit), sets the span
attribute when a thread identifier is present, and awaits the
downstream handler; the `finally` block detaches the context exactly
when one was attached.  An exception raised by the downstream handler
propagates after span closure and detach (`Except.error`).  The effect
on the tracing backend is modelled as the ordered list of operations
performed. -/

/-- The parsed `metadata` object: `thread_id` may be absent. -/
structure MetaObj where
  thread_id : Option String
deriving DecidableEq, Repr

/-- Outcome of the `try` block parsing the body: `malformed` when
`json.loads` (or the metadata access) raises, otherwise the optional
`metadata` object. -/
inductive BodyParse
  | malformed
  | parsed (metadata : Option MetaObj)
deriving DecidableEq, Repr

/-- An inbound HTTP request as seen by the middleware: its method,
whether the body bytes are nonempty, and the parse outcome of the
body. -/
structure AdapterRequest where
  method : String
  bodyNonempty : Bool
  parse : BodyParse
deriving DecidableEq, Repr

/-- Operations performed against the tracing backend, in order. -/
inductive TraceOp
  | attachCtx (tid : String)
  | spanStart
  | setAttr (tid : String)
  | spanEnd
  | detachCtx
deriving DecidableEq, Repr

/-- Outcome of the downstream handler `call_next`: a response, or a
raised exception. -/
inductive HandlerOutcome
  | ok (resp : String)
  | raises (e : String)
deriving DecidableEq, Repr

/-- Lines 104-117: `thread_id` is `None` unless the request is a POST
with a nonempty body that parses to JSON containing a `metadata` object
with a `thread_id` entry. -/
def extractThreadId (req : AdapterRequest) : Option String :=
  if req.method = "POST" && req.bodyNonempty then
    match req.parse with
    | .malformed => none
    | .parsed none => none
    | .parsed (some m) => m.thread_id
  else none

/-- Lines 119-134: context attach (truthy thread identifier only), span
open, attribute set, downstream call, span close on every exit path,
context detach in `finally` when a token exists; the handler's
exception, if any, propagates. -/
def set_thread_id_middleware (req : AdapterRequest) (handler : HandlerOutcome) :
    List TraceOp × Except String String :=
  let thread_id := extractThreadId req
  let attachOps := if truthy thread_id then [TraceOp.attachCtx (thread_id.getD "")] else []
  let attrOps := if truthy thread_id then [TraceOp.setAttr (thread_id.getD "")] else []
  let result : Except String String :=
    match handler with
    | .ok r => .ok r
    | .raises e => .error e
  let finallyOps := if truthy thread_id then [TraceOp.detachCtx] else []
  (attachOps ++ [TraceOp.spanStart] ++ attrOps ++ [TraceOp.spanEnd] ++ finallyOps, result)

theorem extractThreadId_malformed (req : AdapterRequest) (h : req.parse = .malformed) :
    extractThreadId req = none := by
  unfold extractThreadId
  by_cases hc : (req.method = "POST" && req.bodyNonempty) = true
  · rw [if_pos hc, h]
  · rw [if_neg hc]

/-! ### Concrete endpoint environments used in scenarios -/

/-- A 200 response whose `result` carries the given identifiers and
artifact text. -/
def respWith (id ctx : Option String) (text : String) : NetResult :=
  .http 200 ⟨none, some ⟨id, ctx, some text⟩⟩ ""

/-- Endpoint A assigning task `t1` and context `c1`, replying
`Hi back`, in every round. -/
def envAssignA : Nat → NetResult := fun _ => respWith (some "t1") (some "c1") "Hi back"

/-- Endpoint B assigning task `u1` and context `d1`, replying `From B`,
in every round. -/
def envAssignB : Nat → NetResult := fun _ => respWith (some "u1") (some "d1") "From B"

/-- An endpoint answering HTTP 500 in every round. -/
def envFail500 : Nat → NetResult := fun _ => .http 500 ⟨none, none⟩ "Internal Server Error"

/-- Endpoint A succeeding in round 1 and answering HTTP 500 from round
2 on. -/
def envAfailLater : Nat → NetResult := fun i =>
  if i = 0 then respWith (some "t1") (some "c1") "Hi back"
  else .http 500 ⟨none, none⟩ "Internal Server Error"

/-- On every failure tuple both returned identifiers are `None`
(`send_to_langchain` lines 72-88, `send_to_google_adk` lines 135-151:
every non-success `return` passes `None, None`). -/
theorem processNet_fail_ids (x : NetResult) (h : (processNet x).success = false) :
    (processNet x).taskId = none ∧ (processNet x).contextId = none := by
  cases x with
  | exn m => simp [processNet]
  | http status body raw =>
    by_cases hs : status = 200
    · cases hE : body.errorField with
      | some e => simp [processNet, hs, hE]
      | none =>
        cases hR : body.resultField with
        | none => simp [processNet, hs, hE, hR]
        | some obj =>
          cases hT : obj.artifactsText with
          | none => simp [processNet, hs, hE, hR, hT]
          | some t => simp [processNet, hs, hE, hR, hT] at h
    · simp [processNet, hs]

/-! ## Claim theorems -/

/-- C1, counterexample.  The claim states that a message envelope
contains `contextId` exactly when *that endpoint* previously assigned a
context identifier, `taskId` exactly when that endpoint previously
assigned a task identifier, and that the first round to either endpoint
omits both.  In the run below (endpoint A assigns task `t1` and context
`c1`, endpoint B assigns task `u1` and context `d1`, two rounds), the
trace of `(toAdk, request contextId, request taskId, response taskId)`
shows: the *first* request to endpoint B (second entry) already carries
`contextId = "c1"`, which B never assigned (A did); the round-2 request
to A (third entry) carries `contextId = "d1"`, assigned by B, and
carries no `taskId` although A's round-1 response assigned task `t1`
(fourth component of the first entry). -/
theorem c1_counterexample :
    ((simulate_conversation envAssignA envAssignB 2 "Hello" "tid0").1.map
      (fun s => (s.toAdk, s.payload.message.contextId, s.payload.message.taskId,
        s.res.taskId))) =
    [(false, none, none, some "t1"),
     (true, some "c1", none, some "u1"),
     (false, some "d1", none, some "t1"),
     (true, some "c1", none, some "u1")] := by decide

/-- C1, amended: in every run of the relay driver, every message
envelope omits the `taskId` field (the driver always passes `None` for
`task_id`), and contains the `contextId` field exactly when a context
identifier was previously assigned by *either* endpoint — the driver
keeps a single context identifier shared across both endpoints, so only
the very first request of the run omits it once some endpoint assigns
one. -/
theorem c1_envelope_fields (envA envB : Nat → NetResult) (n : Nat) (msg tid : String) :
    envelopeCtxOk none (simulate_conversation envA envB n msg tid).1 :=
  runRelay_envelopeCtxOk envA envB n 0 ⟨msg, tid, none, none, none⟩ (Or.inl rfl)

/-- C2, counterexample.  The claim states that an identifier observed
in a response from endpoint A is never included in a request to
endpoint B.  In a one-round run where A's response assigns context
`c1`, the trace of `(toAdk, request contextId, response contextId)`
shows that the request to endpoint B (second entry) includes exactly
the context identifier `c1` observed in A's response (first entry). -/
theorem c2_counterexample :
    ((simulate_conversation envAssignA envAssignB 1 "Hello" "tid0").1.map
      (fun s => (s.toAdk, s.payload.message.contextId, s.res.contextId))) =
    [(false, none, some "c1"), (true, some "c1", some "d1")] := by decide

/-- C2, amended: task identifiers never cross endpoints — indeed the
driver never includes any `taskId` field in any request to either
endpoint (it always passes `None`); context identifiers, by contrast,
are deliberately shared: a `contextId` assigned by one endpoint is
included in subsequent requests to the other. -/
theorem c2_task_ids_never_sent (envA envB : Nat → NetResult) (n : Nat) (msg tid : String) :
    noTaskIdSent (simulate_conversation envA envB n msg tid).1 :=
  runRelay_noTaskIdSent envA envB n 0 ⟨msg, tid, none, none, none⟩

/-- C5: in every run, a failed send (non-200 status, `error` field,
missing `result` key, or a raised exception — exactly the cases where
`processNet` yields `success = false`) is the last send performed:
no retry and no subsequent round.  In particular (second conjunct),
with endpoint A answering HTTP 500 from round 2 on and five configured
rounds, exactly three sends happen — round 1 to A and B, the failed
round-2 send to A — and no third round is attempted. -/
theorem c5_aborts_on_failure :
    (∀ (envA envB : Nat → NetResult) (n : Nat) (msg tid : String),
      abortsOnFailure (simulate_conversation envA envB n msg tid).1) ∧
    ((simulate_conversation envAfailLater envAssignB 5 "Hello" "tid0").1.map
      (fun s => (s.toAdk, s.res.success))) =
      [(false, true), (true, true), (false, false)] :=
  ⟨fun envA envB n msg tid =>
    runRelay_abortsOnFailure envA envB n 0 ⟨msg, tid, none, none, none⟩, by decide⟩

/-- C6: in every run, every request's `metadata.thread_id` equals the
driver's current (shared) context identifier, falling back to the
shared thread identifier while no context identifier has been assigned.
In particular (second conjunct), the spec scenario: round 1 sends
"Hello" to endpoint A with `thread_id` the initial shared identifier
`tid0`; A's response assigns context `c1` with text "Hi back"; the next
request sends "Hi back" to endpoint B with `metadata.thread_id = "c1"`. -/
theorem c6_thread_id :
    (∀ (envA envB : Nat → NetResult) (n : Nat) (msg tid : String),
      threadIdsOk none tid (simulate_conversation envA envB n msg tid).1) ∧
    ((simulate_conversation envAssignA envAssignB 1 "Hello" "tid0").1.map
      (fun s => (s.toAdk, s.payload.message.text, s.payload.threadId))) =
      [(false, "Hello", "tid0"), (true, "Hi back", "c1")] :=
  ⟨fun envA envB n msg tid =>
    runRelay_threadIdsOk envA envB n 0 ⟨msg, tid, none, none, none⟩, by decide⟩

/-- C3: for every expression of the permitted fragment whose evaluation
succeeds with an integer value, `calculate` returns exactly the string
"The result is: " followed by that value, and the value is the
mathematically correct denotation of the expression (floors of exact
rational quotients for `//` and `%`). -/
theorem c3_calculate_correct (e : Expr) (v : Int) (h : evalPy e = .val v) :
    calculate e = some ("The result is: " ++ toString v) ∧ mathValue e = some v :=
  ⟨by simp [calculate, h], evalPy_sound e v h⟩

/-- C3, witness: `2 + 2` yields "The result is: 4". -/
theorem c3_calculate_correct_witness :
    calculate (Expr.add (.lit 2) (.lit 2)) = some "The result is: 4" ∧
    mathValue (Expr.add (.lit 2) (.lit 2)) = some 4 :=
  ⟨(c3_calculate_correct (Expr.add (.lit 2) (.lit 2)) 4 (by decide)).1.trans (by decide),
   (c3_calculate_correct (Expr.add (.lit 2) (.lit 2)) 4 (by decide)).2⟩

/-- C4: for every expression whose evaluation raises (syntax-level name
errors such as `__import__`, division by zero, type errors), `calculate`
returns the error string containing the exception description; being a
total function on the modelled fragment, it never propagates an
exception past its boundary. -/
theorem c4_calculate_error (e : Expr) (err : PyError) (h : evalPy e = .exc err) :
    calculate e = some ("Error calculating expression: " ++ pyErrorMsg err) := by
  simp [calculate, h]

/-- C4, witness: the disallowed name `__import__` produces the
`NameError` message inside an error-result string. -/
theorem c4_calculate_error_witness :
    calculate (Expr.call1 "__import__" (.lit 0)) =
      some "Error calculating expression: name __import__ is not defined" :=
  (c4_calculate_error (Expr.call1 "__import__" (.lit 0)) (.nameError "__import__")
    (by decide)).trans (by decide)

theorem updCtx_langchain_task (st : RelayState) (nc : Option String) :
    (updCtx st nc).langchain_task_id = st.langchain_task_id := by
  cases nc with
  | none => simp [updCtx]
  | some c => by_cases hc : c.isEmpty <;> simp [updCtx, hc]

theorem updCtx_adk_task (st : RelayState) (nc : Option String) :
    (updCtx st nc).adk_task_id = st.adk_task_id := by
  cases nc with
  | none => simp [updCtx]
  | some c => by_cases hc : c.isEmpty <;> simp [updCtx, hc]

/-- C7: on a successful round whose response omits the task identifier
(`result.id` absent, so the tuple's `task_id` is `None`) the stored
per-endpoint task identifier is retained, and likewise a response
omitting `contextId` leaves the stored context identifier (and the
shared thread identifier) unchanged — the update functions applied by
the loop on success never clear a stored value. -/
theorem c7_retain_ids (st : RelayState) (r : SendResult) :
    (r.taskId = none →
      (updateLangchain st r).langchain_task_id = st.langchain_task_id ∧
      (updateAdk st r).adk_task_id = st.adk_task_id) ∧
    (r.contextId = none →
      (updateLangchain st r).context_id = st.context_id ∧
      (updateAdk st r).context_id = st.context_id ∧
      (updateLangchain st r).shared_thread_id = st.shared_thread_id ∧
      (updateAdk st r).shared_thread_id = st.shared_thread_id) := by
  constructor
  · intro h
    constructor
    · simp [updateLangchain, updCtx_langchain_task, h, truthy]
    · simp [updateAdk, updCtx_adk_task, h, truthy]
  · intro h
    refine ⟨?_, ?_, ?_, ?_⟩
    · simp [updateLangchain_context_id, h, truthy]
    · simp [updateAdk_context_id, h, truthy]
    · simp [updateLangchain_shared, h, truthy]
    · simp [updateAdk_shared, h, truthy]

/-- C7, witness: a successful response with both identifiers absent
leaves the previously stored identifiers in place. -/
theorem c7_retain_ids_witness :
    (updateLangchain ⟨"m", "tid", some "c", some "lt", some "at"⟩
      ⟨true, "resp", none, none⟩).langchain_task_id = some "lt" ∧
    (updateAdk ⟨"m", "tid", some "c", some "lt", some "at"⟩
      ⟨true, "resp", none, none⟩).adk_task_id = some "at" ∧
    (updateLangchain ⟨"m", "tid", some "c", some "lt", some "at"⟩
      ⟨true, "resp", none, none⟩).context_id = some "c" ∧
    (updateAdk ⟨"m", "tid", some "c", some "lt", some "at"⟩
      ⟨true, "resp", none, none⟩).context_id = some "c" :=
  ⟨((c7_retain_ids ⟨"m", "tid", some "c", some "lt", some "at"⟩
      ⟨true, "resp", none, none⟩).1 rfl).1,
   ((c7_retain_ids ⟨"m", "tid", some "c", some "lt", some "at"⟩
      ⟨true, "resp", none, none⟩).1 rfl).2,
   ((c7_retain_ids ⟨"m", "tid", some "c", some "lt", some "at"⟩
      ⟨true, "resp", none, none⟩).2 rfl).1,
   ((c7_retain_ids ⟨"m", "tid", some "c", some "lt", some "at"⟩
      ⟨true, "resp", none, none⟩).2 rfl).2.1⟩

/-- C8: a malformed JSON body (or any request from which no
`metadata.thread_id` can be extracted) does not fail the request: the
middleware performs no context attach and no attribute set, and returns
the downstream handler's response unchanged. -/
theorem c8_adapter_tolerates_malformed (req : AdapterRequest) (resp : String)
    (h : req.parse = .malformed ∨ extractThreadId req = none) :
    (set_thread_id_middleware req (.ok resp)).2 = .ok resp ∧
    (set_thread_id_middleware req (.ok resp)).1 = [.spanStart, .spanEnd] := by
  have ht : extractThreadId req = none := by
    rcases h with h | h
    · exact extractThreadId_malformed req h
    · exact h
  constructor
  · simp [set_thread_id_middleware, ht, truthy]
  · simp [set_thread_id_middleware, ht, truthy]

/-- C8, witness: a POST with a nonempty body that fails to parse still
yields the downstream response, with only the span opened and closed. -/
theorem c8_adapter_tolerates_malformed_witness :
    (set_thread_id_middleware ⟨"POST", true, .malformed⟩ (.ok "OK")).2 = .ok "OK" ∧
    (set_thread_id_middleware ⟨"POST", true, .malformed⟩ (.ok "OK")).1 =
      [.spanStart, .spanEnd] :=
  c8_adapter_tolerates_malformed ⟨"POST", true, .malformed⟩ "OK" (Or.inl rfl)

/-- C9: whenever the middleware attaches a request-scoped tracing
context (a truthy thread identifier was extracted), the performed
tracing operations are exactly attach, span open, attribute set, span
close, context detach — in that order — for *every* downstream handler
outcome, including a raised exception (the handler outcome is
universally quantified); span closure and detach therefore occur on
every exit path. -/
theorem c9_span_and_context_released (req : AdapterRequest) (handler : HandlerOutcome)
    (h : truthy (extractThreadId req) = true) :
    ∃ t, extractThreadId req = some t ∧
      (set_thread_id_middleware req handler).1 =
        [.attachCtx t, .spanStart, .setAttr t, .spanEnd, .detachCtx] := by
  cases hE : extractThreadId req with
  | none => rw [hE] at h; simp [truthy] at h
  | some t =>
    rw [hE] at h
    exact ⟨t, rfl, by simp [set_thread_id_middleware, hE, h]⟩

/-- C9, witness: with thread identifier `c1` and a downstream handler
that raises, the span is still closed and the context detached. -/
theorem c9_span_and_context_released_witness :
    ∃ t, extractThreadId ⟨"POST", true, .parsed (some ⟨some "c1"⟩)⟩ = some t ∧
      (set_thread_id_middleware ⟨"POST", true, .parsed (some ⟨some "c1"⟩)⟩
        (.raises "boom")).1 =
        [.attachCtx t, .spanStart, .setAttr t, .spanEnd, .detachCtx] :=
  c9_span_and_context_released ⟨"POST", true, .parsed (some ⟨some "c1"⟩)⟩
    (.raises "boom") (by decide)

/-- C10, counterexample.  The claim asserts that the driver's stored
message text, context identifier and task identifiers are unchanged by
a failed round.  In a one-round run where endpoint A succeeds (text
"Hi back", task `t1`, context `c1`) and endpoint B returns HTTP 500,
the round fails (trace successes `[true, false]`), yet the final stored
state has `message = "Hi back"` and `context_id = some "c1"`, changed
from the initial `"Hello"` and `none` by that failed round. -/
theorem c10_counterexample :
    ((simulate_conversation envAssignA envFail500 1 "Hello" "tid0").1.map
      (fun s => s.res.success)) = [true, false] ∧
    (simulate_conversation envAssignA envFail500 1 "Hello" "tid0").2.message = "Hi back" ∧
    (simulate_conversation envAssignA envFail500 1 "Hello" "tid0").2.context_id = some "c1" ∧
    ("Hi back" ≠ "Hello" ∧ (some "c1" : Option String) ≠ none) := by decide

/-- C10, amended: whenever a send returns with `success = False`, the
task-identifier and context-identifier components of its tuple are both
`None`, and the driver exits the loop without applying any state update
*from that failed send*: on a first-endpoint failure the run ends in
the round-start state, and on a second-endpoint failure it ends in the
state produced by the first endpoint's successful update — the failed
response itself never updates the stored message, context identifier or
task identifiers. -/
theorem c10_failed_send_no_update :
    (∀ x : NetResult, (processNet x).success = false →
      (processNet x).taskId = none ∧ (processNet x).contextId = none) ∧
    (∀ (envA envB : Nat → NetResult) (n i : Nat) (st : RelayState),
      (stepToA st (envA i)).res.success = false →
      runRelay envA envB (n + 1) i st = ([stepToA st (envA i)], st)) ∧
    (∀ (envA envB : Nat → NetResult) (n i : Nat) (st : RelayState),
      (stepToA st (envA i)).res.success = true →
      (stepToB (updateLangchain st (stepToA st (envA i)).res) (envB i)).res.success = false →
      runRelay envA envB (n + 1) i st =
        ([stepToA st (envA i),
          stepToB (updateLangchain st (stepToA st (envA i)).res) (envB i)],
         updateLangchain st (stepToA st (envA i)).res)) :=
  ⟨processNet_fail_ids,
   fun envA envB n i st hA => runRelay_succ_failA envA envB n i st hA,
   fun envA envB n i st hA hB => runRelay_succ_failB envA envB n i st hA hB⟩

/-- C10, witness: a 500 response yields a failure tuple with both
identifiers `None`, and a run whose first send fails ends immediately
in the unchanged initial state. -/
theorem c10_failed_send_no_update_witness :
    ((processNet (NetResult.http 500 ⟨none, none⟩ "ISE")).taskId = none ∧
      (processNet (NetResult.http 500 ⟨none, none⟩ "ISE")).contextId = none) ∧
    runRelay envFail500 envAssignB 1 0 ⟨"Hello", "tid0", none, none, none⟩ =
      ([stepToA ⟨"Hello", "tid0", none, none, none⟩ (envFail500 0)],
       ⟨"Hello", "tid0", none, none, none⟩) :=
  ⟨c10_failed_send_no_update.1 (NetResult.http 500 ⟨none, none⟩ "ISE") (by decide),
   c10_failed_send_no_update.2.1 envFail500 envAssignB 0 0
     ⟨"Hello", "tid0", none, none, none⟩ (by decide)⟩
